import Mathlib

/-!
# EnderSwap — verification of the HTLC lock lifecycle and swap orchestration

Shallow embedding of the EnderSwap repository:

* `src/evm/src/HTLC.sol` — the EVM-side hashed-timelock contract
  (`createLock` / `redeem` / `refund` over a `mapping(bytes32 => Lock)`).
* the Sui Move module `htlc::htlc` — the object-model-side lock
  (`createLock` / `redeem` / `refund` over shared `LockObject`s that are
  deleted on a terminal transition).
* `src/relayer-service/scripts` — the TypeScript orchestration layer
  (`hashSecret`, `generateLockId`, the `SwapOrchestrator` demo flows, and
  `SuiService.getLock`).

Bytes are modelled as `List Nat` (each entry `< 256`), addresses and
timestamps as `Nat`.  Machine words in the SHA-256 primitive are `Nat`
reduced `% 2^32` wherever overflow matters.
-/

namespace EnderSwap

/-! ## SHA-256 (FIPS 180-4)

All three hash sites in the repository invoke a platform SHA-256 primitive:
Solidity's `sha256` precompile in `HTLC.redeem`, Move's `std::hash::sha2_256`
in `htlc::redeem`, and node's `crypto.createHash('sha256')` in `hashSecret`.
The primitive itself is not part of the repository, so it is embedded once,
following FIPS 180-4, and each call site below refers to this definition. -/

def w32 : Nat := 4294967296

/-- 32-bit right rotation. -/
def rotr (n x : Nat) : Nat := ((x >>> n) ||| (x <<< (32 - n))) % w32

/-- 32-bit right shift (already within range for `x < 2^32`). -/
def shr (n x : Nat) : Nat := x >>> n

def bigSigma0 (x : Nat) : Nat := (rotr 2 x) ^^^ (rotr 13 x) ^^^ (rotr 22 x)
def bigSigma1 (x : Nat) : Nat := (rotr 6 x) ^^^ (rotr 11 x) ^^^ (rotr 25 x)
def smallSigma0 (x : Nat) : Nat := (rotr 7 x) ^^^ (rotr 18 x) ^^^ (shr 3 x)
def smallSigma1 (x : Nat) : Nat := (rotr 17 x) ^^^ (rotr 19 x) ^^^ (shr 10 x)

def chFn (x y z : Nat) : Nat := (x &&& y) ^^^ ((x ^^^ (w32 - 1)) &&& z)
def majFn (x y z : Nat) : Nat := (x &&& y) ^^^ (x &&& z) ^^^ (y &&& z)

/-- SHA-256 round constants (cube-root fractions of the first 64 primes),
as decimal `Nat` literals. -/
def sha256K : List Nat :=
  [1116352408, 1899447441, 3049323471, 3921009573, 961987163, 1508970993,
   2453635748, 2870763221, 3624381080, 310598401, 607225278, 1426881987,
   1925078388, 2162078206, 2614888103, 3248222580, 3835390401, 4022224774,
   264347078, 604807628, 770255983, 1249150122, 1555081692, 1996064986,
   2554220882, 2821834349, 2952996808, 3210313671, 3336571891, 3584528711,
   113926993, 338241895, 666307205, 773529912, 1294757372, 1396182291,
   1695183700, 1986661051, 2177026350, 2456956037, 2730485921, 2820302411,
   3259730800, 3345764771, 3516065817, 3600352804, 4094571909, 275423344,
   430227734, 506948616, 659060556, 883997877, 958139571, 1322822218,
   1537002063, 1747873779, 1955562222, 2024104815, 2227730452, 2361852424,
   2428436474, 2756734187, 3204031479, 3329325298]

/-- SHA-256 initial hash value (square-root fractions of the first 8
primes), as decimal `Nat` literals. -/
def sha256H0 : List Nat :=
  [1779033703, 3144134277, 1013904242, 2773480762,
   1359893119, 2600822924, 528734635, 1541459225]

/-- Big-endian bytes of `n`, exactly `k` bytes wide. -/
def toBytesBE : Nat → Nat → List Nat
  | 0, _ => []
  | k + 1, n => toBytesBE k (n / 256) ++ [n % 256]

/-- Merkle–Damgård padding: append `0x80`, zeros to 56 mod 64, then the
bit length as 8 big-endian bytes. -/
def sha256Pad (msg : List Nat) : List Nat :=
  msg ++ 128 :: List.replicate ((64 + 55 - msg.length % 64) % 64) 0
      ++ toBytesBE 8 (8 * msg.length)

/-- Pack bytes into big-endian 32-bit words, four at a time. -/
def toWordsBE : List Nat → List Nat
  | a :: b :: c :: d :: rest => (((a * 256 + b) * 256 + c) * 256 + d) :: toWordsBE rest
  | _ => []

/-- Split a word list into 16-word blocks (`fuel` bounds the recursion). -/
def chunk16 : Nat → List Nat → List (List Nat)
  | 0, _ => []
  | _, [] => []
  | fuel + 1, ws => ws.take 16 :: chunk16 fuel (ws.drop 16)

/-- Message-schedule extension; `rw` is the schedule so far, most recent
word first.  Runs `n` more steps of
`W(t) = σ₁(W(t-2)) + W(t-7) + σ₀(W(t-15)) + W(t-16) (mod 2^32)`. -/
def extendW : Nat → List Nat → List Nat
  | 0, rw => rw
  | n + 1, rw =>
      extendW n
        (((smallSigma1 (rw.getD 1 0) + rw.getD 6 0
           + smallSigma0 (rw.getD 14 0) + rw.getD 15 0) % w32) :: rw)

/-- Full 64-entry message schedule for one 16-word block. -/
def messageSchedule (block : List Nat) : List Nat :=
  (extendW 48 block.reverse).reverse

/-- One SHA-256 compression round on the 8-word working state. -/
def sha256Round (st : List Nat) (kw : Nat × Nat) : List Nat :=
  match st with
  | [a, b, c, d, e, f, g, h] =>
      let t1 := (h + bigSigma1 e + chFn e f g + kw.1 + kw.2) % w32
      let t2 := (bigSigma0 a + majFn a b c) % w32
      [(t1 + t2) % w32, a, b, c, (d + t1) % w32, e, f, g]
  | other => other

/-- Compress one block into the running 8-word hash value. -/
def sha256Block (hv : List Nat) (block : List Nat) : List Nat :=
  let st := (sha256K.zip (messageSchedule block)).foldl sha256Round hv
  (hv.zip st).map (fun p => (p.1 + p.2) % w32)

/-- SHA-256 of a byte string, as 32 bytes.  This is the digest primitive
invoked by `HTLC.redeem`, `htlc::redeem` and `hashSecret`. -/
def sha2_256 (msg : List Nat) : List Nat :=
  let padded := sha256Pad msg
  let ws := toWordsBE padded
  ((chunk16 ws.length ws).foldl sha256Block sha256H0).flatMap (toBytesBE 4)

/-! ## EVM ledger — `src/evm/src/HTLC.sol`

Addresses, `bytes32` values used as identifiers, and timestamps are `Nat`;
the `bytes32` secret and secret hash are byte lists (`abi.encodePacked` of a
`bytes32` is its 32 raw bytes).  The contract storage
`mapping(bytes32 => Lock)` is an association list read through `getLockE`,
which returns the all-zero struct for an absent key, as a Solidity mapping
does.  Each operation returns the post-state together with an
`Except`-outcome; a failed `require` reverts, so the returned state is the
input state on every error path. -/

structure EVMLock where
  depositor : Nat
  recipient : Nat
  amount : Nat
  secretHash : List Nat
  timelock : Nat
  claimed : Bool
  refunded : Bool
deriving Repr, DecidableEq

def emptyEVMLock : EVMLock :=
  { depositor := 0, recipient := 0, amount := 0, secretHash := [],
    timelock := 0, claimed := false, refunded := false }

abbrev EVMState := List (Nat × EVMLock)

def getLockE (s : EVMState) (lockId : Nat) : EVMLock :=
  match s.find? (fun p => p.1 == lockId) with
  | some p => p.2
  | none => emptyEVMLock

/-- One revert reason per `require` string in `HTLC.sol`. -/
inductive EVMError
  | amountNotPositive      -- "Amount must be greater than 0"
  | lockIdExists           -- "LockId already exists"
  | notTheRecipient        -- "Not the recipient"
  | alreadyClaimed         -- "Already claimed"
  | alreadyRefunded        -- "Already refunded"
  | timelockExpired        -- "Timelock expired"
  | invalidSecret          -- "Invalid secret"
  | notTheDepositor        -- "Not the depositor"
  | timelockNotExpired     -- "Timelock not expired"
deriving Repr, DecidableEq

/-- A completed value transfer: full `amount` to the address `toAddr`. -/
structure Transfer where
  toAddr : Nat
  amount : Nat
deriving Repr, DecidableEq

namespace HTLC

/-- `HTLC.createLock`: requires `msg.value > 0` and an unused `lockId`
(`locks[lockId].depositor == address(0)`), then stores the lock with
`timelock = block.timestamp + durationSeconds`. -/
def createLock (s : EVMState) (sender now msgValue lockId targetAddress : Nat)
    (hashedSecret : List Nat) (durationSeconds : Nat) :
    EVMState × Except EVMError Unit :=
  if 0 < msgValue then
    if (getLockE s lockId).depositor = 0 then
      ((lockId,
        { depositor := sender, recipient := targetAddress, amount := msgValue,
          secretHash := hashedSecret, timelock := now + durationSeconds,
          claimed := false, refunded := false }) :: s, .ok ())
    else (s, .error .lockIdExists)
  else (s, .error .amountNotPositive)

/-- `HTLC.redeem`: the five `require`s in source order, then
`claimed := true` and the full amount is sent to `msg.sender`
(who the first `require` forces to be the stored recipient). -/
def redeem (s : EVMState) (sender now lockId : Nat) (revealedSecret : List Nat) :
    EVMState × Except EVMError Transfer :=
  let lock := getLockE s lockId
  if lock.recipient = sender then
    if lock.claimed = false then
      if lock.refunded = false then
        if now < lock.timelock then        -- require(lock.timelock > block.timestamp)
          if lock.secretHash = sha2_256 revealedSecret then
            ((lockId, { lock with claimed := true }) :: s,
             .ok { toAddr := sender, amount := lock.amount })
          else (s, .error .invalidSecret)
        else (s, .error .timelockExpired)
      else (s, .error .alreadyRefunded)
    else (s, .error .alreadyClaimed)
  else (s, .error .notTheRecipient)

/-- `HTLC.refund`: depositor-only, not yet terminal, and
`lock.timelock <= block.timestamp`; then `refunded := true` and the full
amount is sent back to `msg.sender` (the depositor). -/
def refund (s : EVMState) (sender now lockId : Nat) :
    EVMState × Except EVMError Transfer :=
  let lock := getLockE s lockId
  if lock.depositor = sender then
    if lock.claimed = false then
      if lock.refunded = false then
        if lock.timelock ≤ now then
          ((lockId, { lock with refunded := true }) :: s,
           .ok { toAddr := sender, amount := lock.amount })
        else (s, .error .timelockNotExpired)
      else (s, .error .alreadyRefunded)
    else (s, .error .alreadyClaimed)
  else (s, .error .notTheDepositor)

end HTLC

/-- Any transaction the HTLC contract accepts, for trace-level invariants. -/
inductive EVMTx
  | create (sender msgValue lockId targetAddress : Nat)
           (hashedSecret : List Nat) (durationSeconds : Nat)
  | redeem (sender lockId : Nat) (revealedSecret : List Nat)
  | refund (sender lockId : Nat)

/-- Post-state of one transaction executed at time `now` (reverted
transactions leave the state unchanged, per the operation definitions). -/
def evmStep (s : EVMState) (now : Nat) : EVMTx → EVMState
  | .create sender v id tgt h dur => (HTLC.createLock s sender now v id tgt h dur).1
  | .redeem sender id sec => (HTLC.redeem s sender now id sec).1
  | .refund sender id => (HTLC.refund s sender now id).1

/-- Run a list of timestamped transactions from a starting state. -/
def evmRun (s : EVMState) (txs : List (Nat × EVMTx)) : EVMState :=
  txs.foldl (fun st p => evmStep st p.1 p.2) s

/-! ## Sui ledger — the `htlc::htlc` Move module

A `LockObject<T>` is a shared object; the shared-object store is an
association list from object id to `LockObject`.  `redeem` and `refund`
take the object by value and `object::delete` its id, so a terminal lock
disappears from the store.  A transaction naming a deleted (or never
created) shared object cannot execute; that runtime failure is
`SuiAbort.eObjectNotFound`.  A failed `assert!` aborts the transaction,
leaving the store unchanged. -/

structure LockObject where
  created_at : Nat
  deadline : Nat
  hashed : List Nat
  refund_adr : Nat
  target_adr : Nat
  initiator : Nat
  secret_length : Nat      -- u8 in source
  coin : Nat               -- value of the locked Coin<T>
deriving Repr, DecidableEq

inductive SuiAbort
  | eSecretPreimageWrong   -- ESecretPreimageWrong = 1
  | eSecretLengthWrong     -- ESecretLengthWrong = 2
  | eRefund3rdParty        -- ERefund3rdParty = 3
  | eRefundEarly           -- ERefundEarly = 4
  | eObjectNotFound        -- runtime: the shared object does not exist
deriving Repr, DecidableEq

abbrev SuiState := List (Nat × LockObject)

def getObj (s : SuiState) (id : Nat) : Option LockObject :=
  (s.find? (fun p => p.1 == id)).map (fun p => p.2)

def removeObj (s : SuiState) (id : Nat) : SuiState :=
  s.filter (fun p => p.1 != id)

namespace htlc

/-- `htlc::createLock`: no amount assertion and no duplicate check — the
object id comes from `object::new`, which never reuses an id (`freshId`
stands for that fresh id).  Stores
`deadline = clock::timestamp_ms(clock) + durationMillis`. -/
def createLock (s : SuiState) (sender now durationMillis : Nat)
    (hashedSecret : List Nat) (targetAddress refund amount secret_length freshId : Nat) :
    SuiState × Except SuiAbort Unit :=
  ((freshId,
    { created_at := now, deadline := now + durationMillis,
      hashed := hashedSecret, refund_adr := refund, target_adr := targetAddress,
      initiator := sender, secret_length := secret_length, coin := amount }) :: s,
   .ok ())

/-- `htlc::redeem`: asserts the secret length and the SHA-256 preimage, then
transfers the coin to `target_adr` and deletes the object.  The function has
no `Clock` parameter and no caller restriction. -/
def redeem (s : SuiState) (sender id : Nat) (revealedSecret : List Nat) :
    SuiState × Except SuiAbort Transfer :=
  match getObj s id with
  | none => (s, .error .eObjectNotFound)
  | some lock =>
      if lock.secret_length = revealedSecret.length then
        if sha2_256 revealedSecret = lock.hashed then
          (removeObj s id, .ok { toAddr := lock.target_adr, amount := lock.coin })
        else (s, .error .eSecretPreimageWrong)
      else (s, .error .eSecretLengthWrong)

/-- A redeem transaction as executed at Sui clock time `now`.  The Move
function takes no `Clock` argument, so the outcome cannot depend on `now`. -/
def redeemAt (s : SuiState) (sender now id : Nat) (revealedSecret : List Nat) :
    SuiState × Except SuiAbort Transfer :=
  redeem s sender id revealedSecret

/-- `htlc::refund`: caller must be `refund_adr`, `initiator` or
`target_adr`; requires `clock.timestamp_ms() > deadline` (strict); then
transfers the coin to `refund_adr` and deletes the object. -/
def refund (s : SuiState) (sender now id : Nat) :
    SuiState × Except SuiAbort Transfer :=
  match getObj s id with
  | none => (s, .error .eObjectNotFound)
  | some lock =>
      if sender = lock.refund_adr ∨ sender = lock.initiator ∨ sender = lock.target_adr then
        if lock.deadline < now then
          (removeObj s id, .ok { toAddr := lock.refund_adr, amount := lock.coin })
        else (s, .error .eRefundEarly)
      else (s, .error .eRefund3rdParty)

end htlc

/-! ## Relayer scripts — `lib/blockchain/common.ts`, `SuiService`,
`SwapOrchestrator` -/

/-- `hashSecret`: SHA-256 of the 32-byte secret (node `crypto`). -/
def hashSecret (secret : List Nat) : List Nat := sha2_256 secret

def hexDigit : Nat → Char
  | 0 => '0' | 1 => '1' | 2 => '2' | 3 => '3' | 4 => '4'
  | 5 => '5' | 6 => '6' | 7 => '7' | 8 => '8' | 9 => '9'
  | 10 => 'a' | 11 => 'b' | 12 => 'c' | 13 => 'd' | 14 => 'e' | 15 => 'f'
  | _ => '?'

/-- Lowercase hex of a byte string, two characters per byte
(`Buffer.toString('hex')`). -/
def hexOfBytes : List Nat → List Char
  | [] => []
  | b :: bs => hexDigit (b / 16) :: hexDigit (b % 16) :: hexOfBytes bs

/-- `generateLockId`: `'0x' + secretHash.toString('hex')`. -/
def generateLockId (secretHash : List Nat) : String :=
  "0x" ++ String.mk (hexOfBytes secretHash)

/-- The view returned by `SuiService.getLock`: it copies the Move object's
fields and hardcodes `claimed: false, refunded: false`. -/
structure SuiLockView where
  objectId : Nat
  initiator : Nat
  targetAddress : Nat
  refundAddress : Nat
  amount : Nat
  secretHash : List Nat
  deadline : Nat
  claimed : Bool
  refunded : Bool
deriving Repr, DecidableEq

/-- `SuiService.getLock`: `null` when the object does not exist (or is no
longer a live move object); otherwise a view with both status flags
constantly `false`. -/
def SuiService.getLock (s : SuiState) (objectId : Nat) : Option SuiLockView :=
  match getObj s objectId with
  | none => none
  | some fields =>
      some { objectId := objectId, initiator := fields.initiator,
             targetAddress := fields.target_adr, refundAddress := fields.refund_adr,
             amount := fields.coin, secretHash := fields.hashed,
             deadline := fields.deadline, claimed := false, refunded := false }

/-- `SuiService.createLock` converts the orchestrator's seconds to
milliseconds before calling the Move entry point. -/
def SuiService.durationMillis (durationSeconds : Nat) : Nat :=
  durationSeconds * 1000

def TIMELOCK_DURATIONS_MAKER : Nat := 48 * 60 * 60
def TIMELOCK_DURATIONS_TAKER : Nat := 24 * 60 * 60

/-- The lock-creation parameters of one orchestrated demo swap: the lock id
derived for the EVM leg, the durations (in seconds, as the orchestrator
passes them) of the initiating (maker, first) and responding (taker,
second) lock, and the secret hash shared by both legs. -/
structure DemoPlan where
  lockId : String
  initiatorDurationSeconds : Nat
  responderDurationSeconds : Nat
  secretHash : List Nat
  suiSecretLength : Nat
deriving Repr, DecidableEq

/-- `SwapOrchestrator.demonstrateEVMToSUI`, projected to its lock-creation
parameters: maker locks ETH with `TIMELOCK_DURATIONS.MAKER`, taker locks
SUI with `TIMELOCK_DURATIONS.TAKER`, both from the same
`hashSecret(secret)`; the EVM `lockId` is `generateLockId(secretHash)`. -/
def demonstrateEVMToSUI (secret : List Nat) : DemoPlan :=
  { lockId := generateLockId (hashSecret secret)
  , initiatorDurationSeconds := TIMELOCK_DURATIONS_MAKER
  , responderDurationSeconds := TIMELOCK_DURATIONS_TAKER
  , secretHash := hashSecret secret
  , suiSecretLength := 32 }

/-- `SwapOrchestrator.demonstrateSUIToEVM`, projected the same way: maker
locks SUI with `MAKER`, taker locks ETH with `TAKER`. -/
def demonstrateSUIToEVM (secret : List Nat) : DemoPlan :=
  { lockId := generateLockId (hashSecret secret)
  , initiatorDurationSeconds := TIMELOCK_DURATIONS_MAKER
  , responderDurationSeconds := TIMELOCK_DURATIONS_TAKER
  , secretHash := hashSecret secret
  , suiSecretLength := 32 }

/-- Real-time length, in milliseconds, of the initiating leg of
`demonstrateEVMToSUI`: the EVM contract consumes `durationSeconds`
directly, so one second of timelock is 1000 ms. -/
def evmToSuiInitiatorMillis : Nat := TIMELOCK_DURATIONS_MAKER * 1000

/-- Real-time length, in milliseconds, of the responding leg of
`demonstrateEVMToSUI` (`SuiService.createLock` converts seconds to ms). -/
def evmToSuiResponderMillis : Nat := SuiService.durationMillis TIMELOCK_DURATIONS_TAKER

/-- Initiating (Sui) leg of `demonstrateSUIToEVM`, in milliseconds. -/
def suiToEvmInitiatorMillis : Nat := SuiService.durationMillis TIMELOCK_DURATIONS_MAKER

/-- Responding (EVM) leg of `demonstrateSUIToEVM`, in milliseconds. -/
def suiToEvmResponderMillis : Nat := TIMELOCK_DURATIONS_TAKER * 1000

/-- Whether an `Except` outcome is a success. -/
def isOkE {ε α : Type} : Except ε α → Bool
  | .ok _ => true
  | .error _ => false

def EVMTx.sender : EVMTx → Nat
  | .create s _ _ _ _ _ => s
  | .redeem s _ _ => s
  | .refund s _ => s

/-- Well-formedness: a storage slot whose `depositor` is the zero address is
the untouched all-zero struct.  This holds for every state built from empty
storage by transactions, since `address(0)` cannot send a transaction. -/
def evmWF (s : EVMState) : Prop :=
  ∀ id, (getLockE s id).depositor = 0 → getLockE s id = emptyEVMLock

/-- `claimed` and `refunded` are never simultaneously set. -/
def evmMutex (s : EVMState) : Prop :=
  ∀ id, ¬((getLockE s id).claimed = true ∧ (getLockE s id).refunded = true)

/-- All senders in a transaction batch are nonzero addresses. -/
def goodTxs (txs : List (Nat × EVMTx)) : Prop :=
  ∀ p ∈ txs, EVMTx.sender p.2 ≠ 0

/-! ### Concrete fixtures for witnesses and counterexamples -/

/-- A concrete 32-byte secret. -/
def secW : List Nat := List.replicate 32 7

/-- SHA-256 digest of `secW`. -/
def secWHash : List Nat :=
  [75, 176, 111, 142, 78, 58, 119, 21, 210, 1, 213, 115, 208, 170, 66, 55,
   98, 229, 93, 171, 214, 26, 44, 2, 39, 143, 165, 108, 198, 210, 148, 224]

/-- A live EVM lock: depositor 5, recipient 6, 10 wei, deadline 1000. -/
def evmLockW : EVMLock :=
  { depositor := 5, recipient := 6, amount := 10, secretHash := secWHash,
    timelock := 1000, claimed := false, refunded := false }

def evmStateW : EVMState := [(1, evmLockW)]

/-- An already-claimed EVM lock under id 2. -/
def evmClaimedLockW : EVMLock :=
  { depositor := 5, recipient := 6, amount := 10, secretHash := secWHash,
    timelock := 1000, claimed := true, refunded := false }

def evmClaimedStateW : EVMState := [(2, evmClaimedLockW)]

/-- A live Sui lock object: refund 3, target 4, initiator 5, 25 MIST,
deadline 1000 ms, 32-byte secret. -/
def suiLockW : LockObject :=
  { created_at := 0, deadline := 1000, hashed := secWHash, refund_adr := 3,
    target_adr := 4, initiator := 5, secret_length := 32, coin := 25 }

def suiStateW : SuiState := [(1, suiLockW)]

/-! ## Helper lemmas -/

theorem isOkE_ok {ε α : Type} (a : α) : isOkE (ε := ε) (.ok a) = true := rfl

theorem isOkE_error {ε α : Type} (e : ε) : isOkE (α := α) (.error e) = false := rfl

theorem getLockE_cons (id' : Nat) (l : EVMLock) (s : EVMState) (id : Nat) :
    getLockE ((id', l) :: s) id = if id' = id then l else getLockE s id := by
  by_cases h : id' = id <;> simp [getLockE, List.find?_cons, h]

theorem getObj_cons (id' : Nat) (l : LockObject) (s : SuiState) (id : Nat) :
    getObj ((id', l) :: s) id = if id' = id then some l else getObj s id := by
  by_cases h : id' = id <;> simp [getObj, List.find?_cons, h]

theorem getObj_removeObj (s : SuiState) (id : Nat) :
    getObj (removeObj s id) id = none := by
  induction s with
  | nil => rfl
  | cons p s ih =>
      by_cases h : p.1 = id <;>
        simp [removeObj, List.filter_cons, h, getObj, List.find?_cons] at ih ⊢

/-- Success condition of `HTLC.redeem`: exactly the five `require`s. -/
theorem evm_redeem_isOk (s : EVMState) (sender now lockId : Nat) (sec : List Nat) :
    isOkE (HTLC.redeem s sender now lockId sec).2 = true ↔
      ((getLockE s lockId).recipient = sender ∧
       (getLockE s lockId).claimed = false ∧
       (getLockE s lockId).refunded = false ∧
       now < (getLockE s lockId).timelock ∧
       (getLockE s lockId).secretHash = sha2_256 sec) := by
  simp only [HTLC.redeem]
  split_ifs <;> simp_all [isOkE]

/-- Success condition of `HTLC.refund`. -/
theorem evm_refund_isOk (s : EVMState) (sender now lockId : Nat) :
    isOkE (HTLC.refund s sender now lockId).2 = true ↔
      ((getLockE s lockId).depositor = sender ∧
       (getLockE s lockId).claimed = false ∧
       (getLockE s lockId).refunded = false ∧
       (getLockE s lockId).timelock ≤ now) := by
  simp only [HTLC.refund]
  split_ifs <;> simp_all [isOkE]

/-- Success condition of `HTLC.createLock`. -/
theorem evm_createLock_isOk (s : EVMState) (sender now v lockId tgt : Nat)
    (h : List Nat) (dur : Nat) :
    isOkE (HTLC.createLock s sender now v lockId tgt h dur).2 = true ↔
      (0 < v ∧ (getLockE s lockId).depositor = 0) := by
  simp only [HTLC.createLock]
  split_ifs <;> simp_all [isOkE]

/-- A reverted EVM `redeem` leaves the storage untouched. -/
theorem evm_redeem_error_state (s : EVMState) (sender now lockId : Nat)
    (sec : List Nat) (e : EVMError)
    (h : (HTLC.redeem s sender now lockId sec).2 = .error e) :
    (HTLC.redeem s sender now lockId sec).1 = s := by
  simp only [HTLC.redeem] at h ⊢
  split_ifs at h ⊢ <;> simp_all

/-- A reverted EVM `refund` leaves the storage untouched. -/
theorem evm_refund_error_state (s : EVMState) (sender now lockId : Nat)
    (e : EVMError) (h : (HTLC.refund s sender now lockId).2 = .error e) :
    (HTLC.refund s sender now lockId).1 = s := by
  simp only [HTLC.refund] at h ⊢
  split_ifs at h ⊢ <;> simp_all

/-- On success, `HTLC.redeem` pays the full stored amount to the caller
(the stored recipient) and flips `claimed`. -/
theorem evm_redeem_ok_parts (s : EVMState) (sender now lockId : Nat)
    (sec : List Nat) (s' : EVMState) (t : Transfer)
    (h : HTLC.redeem s sender now lockId sec = (s', .ok t)) :
    t = { toAddr := sender, amount := (getLockE s lockId).amount } ∧
    sender = (getLockE s lockId).recipient ∧
    s' = (lockId, { getLockE s lockId with claimed := true }) :: s := by
  simp only [HTLC.redeem] at h
  split_ifs at h with h1 h2 h3 h4 h5 <;> simp_all

/-- On success, `HTLC.refund` pays the full stored amount back to the caller
(the stored depositor) and flips `refunded`. -/
theorem evm_refund_ok_parts (s : EVMState) (sender now lockId : Nat)
    (s' : EVMState) (t : Transfer)
    (h : HTLC.refund s sender now lockId = (s', .ok t)) :
    t = { toAddr := sender, amount := (getLockE s lockId).amount } ∧
    sender = (getLockE s lockId).depositor ∧
    s' = (lockId, { getLockE s lockId with refunded := true }) :: s := by
  simp only [HTLC.refund] at h
  split_ifs at h with h1 h2 h3 h4 <;> simp_all

/-- Success condition of `htlc::redeem`: object live, secret length right,
SHA-256 preimage right.  No clock, no caller condition. -/
theorem sui_redeem_isOk (s : SuiState) (sender id : Nat) (sec : List Nat) :
    isOkE (htlc.redeem s sender id sec).2 = true ↔
      ∃ lock, getObj s id = some lock ∧
        lock.secret_length = sec.length ∧ sha2_256 sec = lock.hashed := by
  cases hobj : getObj s id with
  | none => simp [htlc.redeem, hobj, isOkE]
  | some lock =>
      simp only [htlc.redeem, hobj]
      split_ifs <;> simp_all [isOkE]

/-- Success condition of `htlc::refund`: object live, caller among the three
stored addresses, and strictly past the deadline. -/
theorem sui_refund_isOk (s : SuiState) (sender now id : Nat) :
    isOkE (htlc.refund s sender now id).2 = true ↔
      ∃ lock, getObj s id = some lock ∧
        (sender = lock.refund_adr ∨ sender = lock.initiator ∨ sender = lock.target_adr) ∧
        lock.deadline < now := by
  cases hobj : getObj s id with
  | none => simp [htlc.refund, hobj, isOkE]
  | some lock =>
      simp only [htlc.refund, hobj]
      split_ifs <;> simp_all [isOkE]

/-- On success, `htlc::redeem` pays the whole coin to the stored
`target_adr` and deletes the object. -/
theorem sui_redeem_ok_parts (s : SuiState) (sender id : Nat) (sec : List Nat)
    (s' : SuiState) (t : Transfer) (lock : LockObject)
    (hobj : getObj s id = some lock)
    (h : htlc.redeem s sender id sec = (s', .ok t)) :
    t = { toAddr := lock.target_adr, amount := lock.coin } ∧ s' = removeObj s id := by
  simp only [htlc.redeem, hobj] at h
  split_ifs at h <;> simp_all

/-- On success, `htlc::refund` pays the whole coin to the stored
`refund_adr` and deletes the object. -/
theorem sui_refund_ok_parts (s : SuiState) (sender now id : Nat)
    (s' : SuiState) (t : Transfer) (lock : LockObject)
    (hobj : getObj s id = some lock)
    (h : htlc.refund s sender now id = (s', .ok t)) :
    t = { toAddr := lock.refund_adr, amount := lock.coin } ∧ s' = removeObj s id := by
  simp only [htlc.refund, hobj] at h
  split_ifs at h <;> simp_all

/-- An aborted `htlc::redeem` leaves the store untouched. -/
theorem sui_redeem_error_state (s : SuiState) (sender id : Nat) (sec : List Nat)
    (e : SuiAbort) (h : (htlc.redeem s sender id sec).2 = .error e) :
    (htlc.redeem s sender id sec).1 = s := by
  simp only [htlc.redeem] at h ⊢
  cases hobj : getObj s id with
  | none => simp
  | some lock => simp only [hobj] at h ⊢; split_ifs at h ⊢ <;> simp_all

/-- An aborted `htlc::refund` leaves the store untouched. -/
theorem sui_refund_error_state (s : SuiState) (sender now id : Nat)
    (e : SuiAbort) (h : (htlc.refund s sender now id).2 = .error e) :
    (htlc.refund s sender now id).1 = s := by
  simp only [htlc.refund] at h ⊢
  cases hobj : getObj s id with
  | none => simp
  | some lock => simp only [hobj] at h ⊢; split_ifs at h ⊢ <;> simp_all

theorem evmWF_nil : evmWF [] := fun _ _ => rfl

theorem evmMutex_nil : evmMutex [] := by
  intro id h
  simp [getLockE, emptyEVMLock] at h

theorem evmStep_WF (s : EVMState) (now : Nat) (tx : EVMTx)
    (hwf : evmWF s) (hs : tx.sender ≠ 0) : evmWF (evmStep s now tx) := by
  cases tx with
  | create sender v lockId tgt hsh dur =>
      simp only [evmStep, HTLC.createLock]
      split_ifs with h1 h2
      · intro id
        rw [getLockE_cons]
        split_ifs with he
        · intro hd; exact absurd hd (by simpa [EVMTx.sender] using hs)
        · exact hwf id
      · exact hwf
      · exact hwf
  | redeem sender lockId sec =>
      simp only [evmStep, HTLC.redeem]
      split_ifs with h1 h2 h3 h4 h5
      all_goals try exact hwf
      intro id
      rw [getLockE_cons]
      split_ifs with he
      · intro hd
        simp only at hd
        have : getLockE s lockId = emptyEVMLock := hwf lockId hd
        rw [this] at h1
        exact absurd h1.symm (by simpa [EVMTx.sender, emptyEVMLock] using hs)
      · exact hwf id
  | refund sender lockId =>
      simp only [evmStep, HTLC.refund]
      split_ifs with h1 h2 h3 h4
      all_goals try exact hwf
      intro id
      rw [getLockE_cons]
      split_ifs with he
      · intro hd
        simp only at hd
        rw [hd] at h1
        exact absurd h1.symm (by simpa [EVMTx.sender] using hs)
      · exact hwf id

theorem evmStep_claimed_mono (s : EVMState) (now : Nat) (tx : EVMTx) (id : Nat)
    (hwf : evmWF s) (hs : tx.sender ≠ 0)
    (h : (getLockE s id).claimed = true) :
    (getLockE (evmStep s now tx) id).claimed = true := by
  cases tx with
  | create sender v lockId tgt hsh dur =>
      simp only [evmStep, HTLC.createLock]
      split_ifs with h1 h2
      · rw [getLockE_cons]
        split_ifs with he
        · exfalso
          subst he
          rw [hwf _ h2] at h
          simp [emptyEVMLock] at h
        · exact h
      · exact h
      · exact h
  | redeem sender lockId sec =>
      simp only [evmStep, HTLC.redeem]
      split_ifs with h1 h2 h3 h4 h5
      all_goals try exact h
      rw [getLockE_cons]
      split_ifs with he
      · rfl
      · exact h
  | refund sender lockId =>
      simp only [evmStep, HTLC.refund]
      split_ifs with h1 h2 h3 h4
      all_goals try exact h
      rw [getLockE_cons]
      split_ifs with he
      · subst he; simpa using h
      · exact h

theorem evmStep_refunded_mono (s : EVMState) (now : Nat) (tx : EVMTx) (id : Nat)
    (hwf : evmWF s) (hs : tx.sender ≠ 0)
    (h : (getLockE s id).refunded = true) :
    (getLockE (evmStep s now tx) id).refunded = true := by
  cases tx with
  | create sender v lockId tgt hsh dur =>
      simp only [evmStep, HTLC.createLock]
      split_ifs with h1 h2
      · rw [getLockE_cons]
        split_ifs with he
        · exfalso
          subst he
          rw [hwf _ h2] at h
          simp [emptyEVMLock] at h
        · exact h
      · exact h
      · exact h
  | redeem sender lockId sec =>
      simp only [evmStep, HTLC.redeem]
      split_ifs with h1 h2 h3 h4 h5
      all_goals try exact h
      rw [getLockE_cons]
      split_ifs with he
      · subst he; simpa using h
      · exact h
  | refund sender lockId =>
      simp only [evmStep, HTLC.refund]
      split_ifs with h1 h2 h3 h4
      all_goals try exact h
      rw [getLockE_cons]
      split_ifs with he
      · rfl
      · exact h

theorem evmStep_mutex (s : EVMState) (now : Nat) (tx : EVMTx)
    (hm : evmMutex s) : evmMutex (evmStep s now tx) := by
  cases tx with
  | create sender v lockId tgt hsh dur =>
      simp only [evmStep, HTLC.createLock]
      split_ifs with h1 h2
      · intro id
        rw [getLockE_cons]
        split_ifs with he
        · simp
        · exact hm id
      · exact hm
      · exact hm
  | redeem sender lockId sec =>
      simp only [evmStep, HTLC.redeem]
      split_ifs with h1 h2 h3 h4 h5
      all_goals try exact hm
      intro id
      rw [getLockE_cons]
      split_ifs with he
      · simpa using h3
      · exact hm id
  | refund sender lockId =>
      simp only [evmStep, HTLC.refund]
      split_ifs with h1 h2 h3 h4
      all_goals try exact hm
      intro id
      rw [getLockE_cons]
      split_ifs with he
      · simpa using h2
      · exact hm id

theorem evmRun_WF (txs : List (Nat × EVMTx)) (s : EVMState)
    (hwf : evmWF s) (hg : goodTxs txs) : evmWF (evmRun s txs) := by
  induction txs generalizing s with
  | nil => exact hwf
  | cons p txs ih =>
      exact ih _ (evmStep_WF s p.1 p.2 hwf (hg p (by simp)))
        (fun q hq => hg q (by simp [hq]))

theorem evmRun_mutex (txs : List (Nat × EVMTx)) (s : EVMState)
    (hm : evmMutex s) : evmMutex (evmRun s txs) := by
  induction txs generalizing s with
  | nil => exact hm
  | cons p txs ih => exact ih _ (evmStep_mutex s p.1 p.2 hm)

theorem evmRun_claimed_mono (txs : List (Nat × EVMTx)) (s : EVMState) (id : Nat)
    (hwf : evmWF s) (hg : goodTxs txs)
    (h : (getLockE s id).claimed = true) :
    (getLockE (evmRun s txs) id).claimed = true := by
  induction txs generalizing s with
  | nil => exact h
  | cons p txs ih =>
      exact ih _ (evmStep_WF s p.1 p.2 hwf (hg p (by simp)))
        (fun q hq => hg q (by simp [hq]))
        (evmStep_claimed_mono s p.1 p.2 id hwf (hg p (by simp)) h)

theorem evmRun_refunded_mono (txs : List (Nat × EVMTx)) (s : EVMState) (id : Nat)
    (hwf : evmWF s) (hg : goodTxs txs)
    (h : (getLockE s id).refunded = true) :
    (getLockE (evmRun s txs) id).refunded = true := by
  induction txs generalizing s with
  | nil => exact h
  | cons p txs ih =>
      exact ih _ (evmStep_WF s p.1 p.2 hwf (hg p (by simp)))
        (fun q hq => hg q (by simp [hq]))
        (evmStep_refunded_mono s p.1 p.2 id hwf (hg p (by simp)) h)

/-- Calls on a deleted (or never created) Sui object fail. -/
theorem sui_gone_fails (s : SuiState) (sender now id : Nat) (sec : List Nat)
    (h : getObj s id = none) :
    (htlc.redeem s sender id sec).2 = .error .eObjectNotFound ∧
    (htlc.refund s sender now id).2 = .error .eObjectNotFound := by
  constructor <;> simp [htlc.redeem, htlc.refund, h]

/-- Calls on a terminal EVM lock never succeed. -/
theorem evm_terminal_calls_fail (s : EVMState) (sender now lockId : Nat)
    (sec : List Nat)
    (h : (getLockE s lockId).claimed = true ∨ (getLockE s lockId).refunded = true) :
    isOkE (HTLC.redeem s sender now lockId sec).2 = false ∧
    isOkE (HTLC.refund s sender now lockId).2 = false := by
  constructor <;>
    · simp only [HTLC.redeem, HTLC.refund]
      rcases h with h | h <;> split_ifs <;> simp_all [isOkE]

/-- The fixture digest is indeed the SHA-256 of the fixture secret. -/
theorem sha2_256_secW : sha2_256 secW = secWHash := by decide

/-! ## Claim C1 — temporal gating -/

/-- C1 counterexample: the claim says that on either ledger a claim
succeeds only while `now < deadline` and that a late claim fails with a
timelock error.  On the Sui ledger, a redeem transaction executed at clock
time 2000 — strictly past the lock's deadline 1000 — succeeds with the
correct secret, because `htlc::redeem` takes no `Clock` argument at all.
(The same lock is also refundable at time 2000, so the two windows are not
disjoint on Sui.) -/
theorem claim_C1_counterexample :
    suiLockW.deadline = 1000 ∧
    isOkE (htlc.redeemAt suiStateW 9 2000 1 secW).2 = true ∧
    isOkE (htlc.refund suiStateW 3 2000 1).2 = true := by
  refine ⟨rfl, ?_, ?_⟩ <;> decide

/-- C1 (amended): on the EVM ledger, `redeem` succeeds only while
`now < timelock` and `refund` only while `timelock ≤ now`; the windows are
disjoint, so no EVM lock is simultaneously claimable and refundable; a late
claim by the recipient fails with `Timelock expired` and an early refund by
the depositor with `Timelock not expired`, leaving storage unchanged in
both cases.  On the Sui ledger, only `refund` is time-gated — strictly: it
succeeds only while `deadline < now` — while `redeem` never reads the
clock, so a redeem transaction has the same outcome at every execution
time. -/
theorem claim_C1_temporal_gating :
    (∀ (s : EVMState) (sender now lockId : Nat) (sec : List Nat),
        isOkE (HTLC.redeem s sender now lockId sec).2 = true →
        now < (getLockE s lockId).timelock) ∧
    (∀ (s : EVMState) (sender now lockId : Nat),
        isOkE (HTLC.refund s sender now lockId).2 = true →
        (getLockE s lockId).timelock ≤ now) ∧
    (∀ (s : EVMState) (sender sender' now lockId : Nat) (sec : List Nat),
        ¬(isOkE (HTLC.redeem s sender now lockId sec).2 = true ∧
          isOkE (HTLC.refund s sender' now lockId).2 = true)) ∧
    (∀ (s : EVMState) (sender now lockId : Nat) (sec : List Nat),
        (getLockE s lockId).recipient = sender →
        (getLockE s lockId).claimed = false →
        (getLockE s lockId).refunded = false →
        (getLockE s lockId).timelock ≤ now →
        HTLC.redeem s sender now lockId sec = (s, .error .timelockExpired)) ∧
    (∀ (s : EVMState) (sender now lockId : Nat),
        (getLockE s lockId).depositor = sender →
        (getLockE s lockId).claimed = false →
        (getLockE s lockId).refunded = false →
        now < (getLockE s lockId).timelock →
        HTLC.refund s sender now lockId = (s, .error .timelockNotExpired)) ∧
    (∀ (s : SuiState) (sender now id : Nat) (lock : LockObject),
        getObj s id = some lock →
        isOkE (htlc.refund s sender now id).2 = true →
        lock.deadline < now) ∧
    (∀ (s : SuiState) (sender now now' id : Nat) (sec : List Nat),
        htlc.redeemAt s sender now id sec = htlc.redeemAt s sender now' id sec) := by
  refine ⟨?_, ?_, ?_, ?_, ?_, ?_, ?_⟩
  · intro s sender now lockId sec h
    exact ((evm_redeem_isOk s sender now lockId sec).mp h).2.2.2.1
  · intro s sender now lockId h
    exact ((evm_refund_isOk s sender now lockId).mp h).2.2.2
  · rintro s sender sender' now lockId sec ⟨h1, h2⟩
    have a1 := ((evm_redeem_isOk s sender now lockId sec).mp h1).2.2.2.1
    have a2 := ((evm_refund_isOk s sender' now lockId).mp h2).2.2.2
    omega
  · intro s sender now lockId sec h1 h2 h3 h4
    simp only [HTLC.redeem]
    split_ifs <;> simp_all <;> omega
  · intro s sender now lockId h1 h2 h3 h4
    simp only [HTLC.refund]
    split_ifs <;> simp_all <;> omega
  · intro s sender now id lock hobj h
    obtain ⟨lock', hobj', _, hd⟩ := (sui_refund_isOk s sender now id).mp h
    rw [hobj] at hobj'
    cases hobj'
    exact hd
  · intro s sender now now' id sec
    rfl

/-- C1 witness: a concrete late claim on the EVM ledger — recipient 6 calls
`redeem` at time 1500 on a lock with deadline 1000 — reverts with
`Timelock expired` and leaves storage unchanged. -/
theorem claim_C1_witness :
    HTLC.redeem evmStateW 6 1500 1 secW = (evmStateW, .error .timelockExpired) :=
  claim_C1_temporal_gating.2.2.2.1 evmStateW 6 1500 1 secW
    (by decide) (by decide) (by decide) (by decide)

/-! ## Claim C2 — terminal exclusivity -/

/-- C2 counterexample: lock 2 is already terminal (`claimed = true`), yet a
redeem call from address 7 — anyone other than the stored recipient 6 —
fails with `Not the recipient`, not with an already-terminal error, because
`HTLC.redeem` checks the caller before the terminal flags.  (Likewise a
refund call from a non-depositor fails with `Not the depositor`.) -/
theorem claim_C2_counterexample :
    (getLockE evmClaimedStateW 2).claimed = true ∧
    (HTLC.redeem evmClaimedStateW 7 500 2 secW).2 = .error .notTheRecipient ∧
    (HTLC.refund evmClaimedStateW 7 1500 2).2 = .error .notTheDepositor := by
  refine ⟨rfl, ?_, ?_⟩ <;> rfl

/-- C2 (amended): once a lock is terminal, every subsequent claim and
refund call on it fails and leaves storage unchanged; when the caller
passes the authorization check, the reported error is precisely the
already-terminal one (`Already claimed` / `Already refunded` on the EVM
ledger).  Along any EVM transaction trace from empty storage (senders are
nonzero addresses), `claimed` and `refunded` are monotone — status never
reverts to Locked — and never both set, so Claimed and Refunded are
mutually exclusive terminal states.  On the Sui ledger, a successful redeem
or refund deletes the shared object, so every subsequent redeem or refund
on that lock fails with the object-not-found failure. -/
theorem claim_C2_terminal_exclusivity :
    (∀ (s : EVMState) (sender now lockId : Nat) (sec : List Nat),
        ((getLockE s lockId).claimed = true ∨ (getLockE s lockId).refunded = true) →
        isOkE (HTLC.redeem s sender now lockId sec).2 = false ∧
        (HTLC.redeem s sender now lockId sec).1 = s ∧
        isOkE (HTLC.refund s sender now lockId).2 = false ∧
        (HTLC.refund s sender now lockId).1 = s) ∧
    (∀ (s : EVMState) (sender now lockId : Nat) (sec : List Nat),
        (getLockE s lockId).recipient = sender →
        ((getLockE s lockId).claimed = true →
          HTLC.redeem s sender now lockId sec = (s, .error .alreadyClaimed)) ∧
        ((getLockE s lockId).claimed = false → (getLockE s lockId).refunded = true →
          HTLC.redeem s sender now lockId sec = (s, .error .alreadyRefunded))) ∧
    (∀ (s : EVMState) (sender now lockId : Nat),
        (getLockE s lockId).depositor = sender →
        ((getLockE s lockId).claimed = true →
          HTLC.refund s sender now lockId = (s, .error .alreadyClaimed)) ∧
        ((getLockE s lockId).claimed = false → (getLockE s lockId).refunded = true →
          HTLC.refund s sender now lockId = (s, .error .alreadyRefunded))) ∧
    (∀ (txs txs' : List (Nat × EVMTx)) (id : Nat),
        goodTxs txs → goodTxs txs' →
        (((getLockE (evmRun [] txs) id).claimed = true →
          (getLockE (evmRun (evmRun [] txs) txs') id).claimed = true) ∧
         ((getLockE (evmRun [] txs) id).refunded = true →
          (getLockE (evmRun (evmRun [] txs) txs') id).refunded = true) ∧
         ¬((getLockE (evmRun [] txs) id).claimed = true ∧
           (getLockE (evmRun [] txs) id).refunded = true))) ∧
    (∀ (s : SuiState) (sender id : Nat) (sec : List Nat) (s' : SuiState) (t : Transfer),
        htlc.redeem s sender id sec = (s', .ok t) →
        ∀ (sender' now' : Nat) (sec' : List Nat),
          (htlc.redeem s' sender' id sec').2 = .error .eObjectNotFound ∧
          (htlc.refund s' sender' now' id).2 = .error .eObjectNotFound) ∧
    (∀ (s : SuiState) (sender now id : Nat) (s' : SuiState) (t : Transfer),
        htlc.refund s sender now id = (s', .ok t) →
        ∀ (sender' now' : Nat) (sec' : List Nat),
          (htlc.redeem s' sender' id sec').2 = .error .eObjectNotFound ∧
          (htlc.refund s' sender' now' id).2 = .error .eObjectNotFound) := by
  refine ⟨?_, ?_, ?_, ?_, ?_, ?_⟩
  · intro s sender now lockId sec hterm
    refine ⟨?_, ?_, ?_, ?_⟩ <;>
      · simp only [HTLC.redeem, HTLC.refund]
        rcases hterm with h | h <;> split_ifs <;> simp_all [isOkE]
  · intro s sender now lockId sec hrec
    constructor
    · intro hc
      simp only [HTLC.redeem]
      split_ifs <;> simp_all
    · intro hc hr
      simp only [HTLC.redeem]
      split_ifs <;> simp_all
  · intro s sender now lockId hdep
    constructor
    · intro hc
      simp only [HTLC.refund]
      split_ifs <;> simp_all
    · intro hc hr
      simp only [HTLC.refund]
      split_ifs <;> simp_all
  · intro txs txs' id hg hg'
    have hwf : evmWF (evmRun [] txs) := evmRun_WF txs [] evmWF_nil hg
    refine ⟨?_, ?_, ?_⟩
    · intro h
      exact evmRun_claimed_mono txs' _ id hwf hg' h
    · intro h
      exact evmRun_refunded_mono txs' _ id hwf hg' h
    · exact evmRun_mutex txs [] evmMutex_nil id
  · intro s sender id sec s' t h sender' now' sec'
    cases hobj : getObj s id with
    | none => simp [htlc.redeem, hobj] at h
    | some lock =>
        have hs' := (sui_redeem_ok_parts s sender id sec s' t lock hobj h).2
        subst hs'
        exact sui_gone_fails _ sender' now' id sec' (getObj_removeObj s id)
  · intro s sender now id s' t h sender' now' sec'
    cases hobj : getObj s id with
    | none => simp [htlc.refund, hobj] at h
    | some lock =>
        have hs' := (sui_refund_ok_parts s sender now id s' t lock hobj h).2
        subst hs'
        exact sui_gone_fails _ sender' now' id sec' (getObj_removeObj s id)

/-- C2 witness: on the concrete already-claimed lock, a redeem call by the
stored recipient reverts with `Already claimed`. -/
theorem claim_C2_witness :
    HTLC.redeem evmClaimedStateW 6 500 2 secW = (evmClaimedStateW, .error .alreadyClaimed) :=
  (claim_C2_terminal_exclusivity.2.1 evmClaimedStateW 6 500 2 secW (by decide)).1 (by decide)

/-! ## Claim C3 — hash binding -/

/-- C3: with the other preconditions in place (authorized caller, lock
still Locked, before the deadline on the EVM side; object live on the Sui
side), a claim succeeds exactly when the supplied secret's SHA-256 digest
equals the stored hash — and, on the Sui module, its byte length equals
`secret_length`.  Any other secret fails with the invalid-secret abort of
that ledger (`Invalid secret` on EVM; `ESecretLengthWrong` /
`ESecretPreimageWrong` on Sui) and leaves the lock unchanged, so the
correct secret can still be submitted afterwards. -/
theorem claim_C3_hash_binding :
    (∀ (s : EVMState) (sender now lockId : Nat) (sec : List Nat),
        (getLockE s lockId).recipient = sender →
        (getLockE s lockId).claimed = false →
        (getLockE s lockId).refunded = false →
        now < (getLockE s lockId).timelock →
        ((isOkE (HTLC.redeem s sender now lockId sec).2 = true ↔
           (getLockE s lockId).secretHash = sha2_256 sec) ∧
         ((getLockE s lockId).secretHash ≠ sha2_256 sec →
           HTLC.redeem s sender now lockId sec = (s, .error .invalidSecret)))) ∧
    (∀ (s : SuiState) (sender id : Nat) (sec : List Nat) (lock : LockObject),
        getObj s id = some lock →
        ((isOkE (htlc.redeem s sender id sec).2 = true ↔
           (lock.secret_length = sec.length ∧ sha2_256 sec = lock.hashed)) ∧
         (lock.secret_length ≠ sec.length →
           htlc.redeem s sender id sec = (s, .error .eSecretLengthWrong)) ∧
         (lock.secret_length = sec.length → sha2_256 sec ≠ lock.hashed →
           htlc.redeem s sender id sec = (s, .error .eSecretPreimageWrong)))) ∧
    (∀ (s : EVMState) (sender now lockId : Nat) (wrong right : List Nat),
        (getLockE s lockId).recipient = sender →
        (getLockE s lockId).claimed = false →
        (getLockE s lockId).refunded = false →
        now < (getLockE s lockId).timelock →
        (getLockE s lockId).secretHash ≠ sha2_256 wrong →
        (getLockE s lockId).secretHash = sha2_256 right →
        isOkE (HTLC.redeem (HTLC.redeem s sender now lockId wrong).1
                 sender now lockId right).2 = true) := by
  refine ⟨?_, ?_, ?_⟩
  · intro s sender now lockId sec h1 h2 h3 h4
    constructor
    · rw [evm_redeem_isOk]
      constructor
      · exact fun h => h.2.2.2.2
      · exact fun h => ⟨h1, h2, h3, h4, h⟩
    · intro hne
      simp only [HTLC.redeem]
      split_ifs <;> simp_all
  · intro s sender id sec lock hobj
    refine ⟨?_, ?_, ?_⟩
    · rw [sui_redeem_isOk]
      constructor
      · rintro ⟨lock', hobj', hlen, hhash⟩
        rw [hobj] at hobj'
        cases hobj'
        exact ⟨hlen, hhash⟩
      · exact fun h => ⟨lock, hobj, h.1, h.2⟩
    · intro hlen
      simp only [htlc.redeem, hobj]
      split_ifs <;> simp_all
    · intro hlen hhash
      simp only [htlc.redeem, hobj]
      split_ifs <;> simp_all
  · intro s sender now lockId wrong right h1 h2 h3 h4 hw hr
    have hfail : HTLC.redeem s sender now lockId wrong = (s, .error .invalidSecret) := by
      simp only [HTLC.redeem]
      split_ifs <;> simp_all
    rw [hfail]
    rw [evm_redeem_isOk]
    exact ⟨h1, h2, h3, h4, hr⟩

/-- C3 witness: on the concrete live EVM lock, the correct 32-byte secret
redeems successfully. -/
theorem claim_C3_witness :
    isOkE (HTLC.redeem evmStateW 6 500 1 secW).2 = true :=
  ((claim_C3_hash_binding.1 evmStateW 6 500 1 secW
      (by decide) (by decide) (by decide) (by decide)).1).mpr (by decide)

/-! ## Claim C4 — asymmetric timelocks in the orchestrator -/

/-- C4: in both demo flows the responding (taker, second) lock is created
with a strictly shorter timelock than the initiating (maker, first) lock —
24 hours versus 48 hours — both at the level of the seconds the
orchestrator passes and after each ledger's unit conversion to real
milliseconds. -/
theorem claim_C4_asymmetric_timelocks :
    (∀ secret : List Nat,
        (demonstrateEVMToSUI secret).responderDurationSeconds <
        (demonstrateEVMToSUI secret).initiatorDurationSeconds) ∧
    (∀ secret : List Nat,
        (demonstrateSUIToEVM secret).responderDurationSeconds <
        (demonstrateSUIToEVM secret).initiatorDurationSeconds) ∧
    TIMELOCK_DURATIONS_TAKER = 24 * 60 * 60 ∧
    TIMELOCK_DURATIONS_MAKER = 48 * 60 * 60 ∧
    evmToSuiResponderMillis < evmToSuiInitiatorMillis ∧
    suiToEvmResponderMillis < suiToEvmInitiatorMillis := by
  refine ⟨fun _ => ?_, fun _ => ?_, rfl, rfl, by decide, by decide⟩ <;>
    norm_num [demonstrateEVMToSUI, demonstrateSUIToEVM,
      TIMELOCK_DURATIONS_TAKER, TIMELOCK_DURATIONS_MAKER]

/-! ## Claim C5 — createLock validation -/

/-- C5 counterexample: the claim says `createLock` fails with an
invalid-amount error on each ledger whenever the amount is not positive.
The Sui module's `createLock` performs no amount check: locking a zero-value
coin succeeds, and the zero-amount lock is stored. -/
theorem claim_C5_counterexample :
    (htlc.createLock [] 5 100 1000 secWHash 4 3 0 32 1).2 = .ok () ∧
    getObj (htlc.createLock [] 5 100 1000 secWHash 4 3 0 32 1).1 1 =
      some { created_at := 100, deadline := 1100, hashed := secWHash,
             refund_adr := 3, target_adr := 4, initiator := 5,
             secret_length := 32, coin := 0 } := by
  exact ⟨rfl, rfl⟩

/-- C5 (amended): the EVM `createLock` reverts with `Amount must be greater
than 0` when `msg.value = 0` and with `LockId already exists` when the
supplied identifier is taken; on success it stores the lock with
`timelock = now + durationSeconds`.  The Sui `createLock` checks neither
the amount nor a caller-supplied identifier (its object id is
runtime-fresh, so no duplicate can arise): it always succeeds, storing
`deadline = now + durationMillis`. -/
theorem claim_C5_createLock :
    (∀ (s : EVMState) (sender now lockId tgt : Nat) (h : List Nat) (dur : Nat),
        HTLC.createLock s sender now 0 lockId tgt h dur =
          (s, .error .amountNotPositive)) ∧
    (∀ (s : EVMState) (sender now v lockId tgt : Nat) (h : List Nat) (dur : Nat),
        0 < v → (getLockE s lockId).depositor ≠ 0 →
        HTLC.createLock s sender now v lockId tgt h dur =
          (s, .error .lockIdExists)) ∧
    (∀ (s : EVMState) (sender now v lockId tgt : Nat) (h : List Nat) (dur : Nat),
        0 < v → (getLockE s lockId).depositor = 0 →
        (HTLC.createLock s sender now v lockId tgt h dur).2 = .ok () ∧
        getLockE (HTLC.createLock s sender now v lockId tgt h dur).1 lockId =
          { depositor := sender, recipient := tgt, amount := v, secretHash := h,
            timelock := now + dur, claimed := false, refunded := false }) ∧
    (∀ (s : SuiState) (sender now dur : Nat) (h : List Nat)
        (tgt refund amount slen freshId : Nat),
        (htlc.createLock s sender now dur h tgt refund amount slen freshId).2 = .ok () ∧
        getObj (htlc.createLock s sender now dur h tgt refund amount slen freshId).1
            freshId =
          some { created_at := now, deadline := now + dur, hashed := h,
                 refund_adr := refund, target_adr := tgt, initiator := sender,
                 secret_length := slen, coin := amount }) := by
  refine ⟨?_, ?_, ?_, ?_⟩
  · intro s sender now lockId tgt h dur
    simp [HTLC.createLock]
  · intro s sender now v lockId tgt h dur hv hdep
    simp only [HTLC.createLock]
    split_ifs <;> simp_all
  · intro s sender now v lockId tgt h dur hv hdep
    simp only [HTLC.createLock]
    split_ifs <;> simp_all [getLockE_cons]
  · intro s sender now dur h tgt refund amount slen freshId
    exact ⟨rfl, by simp [htlc.createLock, getObj_cons]⟩

/-- C5 witness: creating a lock under the already-used id 1 with a positive
amount reverts with `LockId already exists` on the EVM ledger. -/
theorem claim_C5_witness :
    HTLC.createLock evmStateW 8 0 10 1 9 secWHash 50 = (evmStateW, .error .lockIdExists) :=
  claim_C5_createLock.2.1 evmStateW 8 0 10 1 9 secWHash 50 (by decide) (by decide)

/-! ## Claim C6 — claim/refund authorization -/

/-- C6: authorization is a per-ledger predicate.  EVM `redeem` requires the
caller to be the stored recipient (any other caller gets `Not the
recipient`) and on success pays that recipient; Sui `redeem` is
caller-independent and on success routes the coin to the stored
`target_adr`.  EVM `refund` is depositor-only (`Not the depositor`
otherwise); Sui `refund` succeeds only for `refund_adr`, `initiator` or
`target_adr`, aborting with `ERefund3rdParty` for anyone else. -/
theorem claim_C6_authorization :
    (∀ (s : EVMState) (sender now lockId : Nat) (sec : List Nat),
        (getLockE s lockId).recipient ≠ sender →
        HTLC.redeem s sender now lockId sec = (s, .error .notTheRecipient)) ∧
    (∀ (s : EVMState) (sender now lockId : Nat) (sec : List Nat)
        (s' : EVMState) (t : Transfer),
        HTLC.redeem s sender now lockId sec = (s', .ok t) →
        sender = (getLockE s lockId).recipient ∧
        t.toAddr = (getLockE s lockId).recipient) ∧
    (∀ (s : SuiState) (sender sender' id : Nat) (sec : List Nat),
        htlc.redeem s sender id sec = htlc.redeem s sender' id sec) ∧
    (∀ (s : SuiState) (sender id : Nat) (sec : List Nat)
        (s' : SuiState) (t : Transfer) (lock : LockObject),
        getObj s id = some lock →
        htlc.redeem s sender id sec = (s', .ok t) →
        t.toAddr = lock.target_adr) ∧
    (∀ (s : EVMState) (sender now lockId : Nat),
        (getLockE s lockId).depositor ≠ sender →
        HTLC.refund s sender now lockId = (s, .error .notTheDepositor)) ∧
    (∀ (s : EVMState) (sender now lockId : Nat) (s' : EVMState) (t : Transfer),
        HTLC.refund s sender now lockId = (s', .ok t) →
        sender = (getLockE s lockId).depositor) ∧
    (∀ (s : SuiState) (sender now id : Nat) (lock : LockObject),
        getObj s id = some lock →
        ¬(sender = lock.refund_adr ∨ sender = lock.initiator ∨
          sender = lock.target_adr) →
        htlc.refund s sender now id = (s, .error .eRefund3rdParty)) ∧
    (∀ (s : SuiState) (sender now id : Nat) (lock : LockObject),
        getObj s id = some lock →
        isOkE (htlc.refund s sender now id).2 = true →
        sender = lock.refund_adr ∨ sender = lock.initiator ∨
        sender = lock.target_adr) := by
  refine ⟨?_, ?_, ?_, ?_, ?_, ?_, ?_, ?_⟩
  · intro s sender now lockId sec hne
    simp only [HTLC.redeem]
    split_ifs <;> simp_all
  · intro s sender now lockId sec s' t h
    have := evm_redeem_ok_parts s sender now lockId sec s' t h
    exact ⟨this.2.1, by rw [this.1, this.2.1]⟩
  · intro s sender sender' id sec
    rfl
  · intro s sender id sec s' t lock hobj h
    have := (sui_redeem_ok_parts s sender id sec s' t lock hobj h).1
    rw [this]
  · intro s sender now lockId hne
    simp only [HTLC.refund]
    split_ifs <;> simp_all
  · intro s sender now lockId s' t h
    exact (evm_refund_ok_parts s sender now lockId s' t h).2.1
  · intro s sender now id lock hobj hne
    simp only [htlc.refund, hobj]
    split_ifs <;> simp_all
  · intro s sender now id lock hobj h
    obtain ⟨lock', hobj', hauth, _⟩ := (sui_refund_isOk s sender now id).mp h
    rw [hobj] at hobj'
    cases hobj'
    exact hauth

/-- C6 witness: on the concrete live EVM lock (recipient 6), a redeem call
from address 9 reverts with `Not the recipient`. -/
theorem claim_C6_witness :
    HTLC.redeem evmStateW 9 500 1 secW = (evmStateW, .error .notTheRecipient) :=
  claim_C6_authorization.1 evmStateW 9 500 1 secW (by decide)

/-! ## Claim C7 — one hash primitive across ledgers -/

/-- C7: all three digest sites — the EVM contract's
`sha256(abi.encodePacked(revealedSecret))`, the Sui module's
`hash::sha2_256(revealedSecret)` and the orchestrator's `hashSecret` — are
the same SHA-256 primitive (`sha2_256` here), so for locks created from the
same `secretHash` (as both demo flows do, with `secretLength` 32), a
32-byte secret passes the EVM hash check exactly when it passes the Sui
hash-and-length check. -/
theorem claim_C7_hash_primitive :
    (∀ secret : List Nat, hashSecret secret = sha2_256 secret) ∧
    (∀ (s : EVMState) (ss : SuiState) (sender sender' now lockId id : Nat)
        (secret h : List Nat) (lock : LockObject),
        (getLockE s lockId).secretHash = h →
        getObj ss id = some lock → lock.hashed = h → lock.secret_length = 32 →
        secret.length = 32 →
        (getLockE s lockId).recipient = sender →
        (getLockE s lockId).claimed = false →
        (getLockE s lockId).refunded = false →
        now < (getLockE s lockId).timelock →
        (isOkE (HTLC.redeem s sender now lockId secret).2 = true ↔
         isOkE (htlc.redeem ss sender' id secret).2 = true)) ∧
    (∀ secret : List Nat,
        (demonstrateEVMToSUI secret).secretHash = sha2_256 secret ∧
        (demonstrateSUIToEVM secret).secretHash = sha2_256 secret ∧
        (demonstrateEVMToSUI secret).suiSecretLength = 32 ∧
        (demonstrateSUIToEVM secret).suiSecretLength = 32) := by
  refine ⟨fun _ => rfl, ?_, fun _ => ⟨rfl, rfl, rfl, rfl⟩⟩
  intro s ss sender sender' now lockId id secret h lock
  intro hh hobj hlh hsl hlen hrec hcl hrf hnow
  rw [evm_redeem_isOk, sui_redeem_isOk]
  constructor
  · rintro ⟨-, -, -, -, hhash⟩
    exact ⟨lock, hobj, by omega, by rw [← hhash, hh, hlh]⟩
  · rintro ⟨lock', hobj', -, hhash⟩
    rw [hobj] at hobj'
    cases hobj'
    exact ⟨hrec, hcl, hrf, hnow, by rw [hh, ← hlh, hhash]⟩

/-- C7 witness: on the concrete lock pair sharing the digest of `secW`,
redeeming with `secW` succeeds on one ledger exactly when it succeeds on
the other (and both in fact succeed). -/
theorem claim_C7_witness :
    (isOkE (HTLC.redeem evmStateW 6 500 1 secW).2 = true ↔
     isOkE (htlc.redeem suiStateW 9 1 secW).2 = true) ∧
    isOkE (htlc.redeem suiStateW 9 1 secW).2 = true :=
  ⟨claim_C7_hash_primitive.2.1 evmStateW suiStateW 6 9 500 1 1 secW secWHash
      suiLockW (by decide) (by decide) (by decide) (by decide) (by decide)
      (by decide) (by decide) (by decide) (by decide),
   by decide⟩

/-! ## Claim C8 — conservation -/

/-- C8: every terminal transition transfers the full locked amount exactly
once, to exactly one party — the stored recipient / `target_adr` on claim,
the depositor / `refund_adr` on refund — and afterwards no further claim or
refund on that lock can succeed (the EVM lock is flagged terminal; the Sui
object is deleted, retaining no balance). -/
theorem claim_C8_conservation :
    (∀ (s : EVMState) (sender now lockId : Nat) (sec : List Nat)
        (s' : EVMState) (t : Transfer),
        HTLC.redeem s sender now lockId sec = (s', .ok t) →
        t.amount = (getLockE s lockId).amount ∧
        t.toAddr = (getLockE s lockId).recipient ∧
        (∀ (sender' now' : Nat) (sec' : List Nat),
          isOkE (HTLC.redeem s' sender' now' lockId sec').2 = false ∧
          isOkE (HTLC.refund s' sender' now' lockId).2 = false)) ∧
    (∀ (s : EVMState) (sender now lockId : Nat) (s' : EVMState) (t : Transfer),
        HTLC.refund s sender now lockId = (s', .ok t) →
        t.amount = (getLockE s lockId).amount ∧
        t.toAddr = (getLockE s lockId).depositor ∧
        (∀ (sender' now' : Nat) (sec' : List Nat),
          isOkE (HTLC.redeem s' sender' now' lockId sec').2 = false ∧
          isOkE (HTLC.refund s' sender' now' lockId).2 = false)) ∧
    (∀ (s : SuiState) (sender id : Nat) (sec : List Nat)
        (s' : SuiState) (t : Transfer) (lock : LockObject),
        getObj s id = some lock →
        htlc.redeem s sender id sec = (s', .ok t) →
        t = { toAddr := lock.target_adr, amount := lock.coin } ∧
        getObj s' id = none ∧
        (∀ (sender' now' : Nat) (sec' : List Nat),
          isOkE (htlc.redeem s' sender' id sec').2 = false ∧
          isOkE (htlc.refund s' sender' now' id).2 = false)) ∧
    (∀ (s : SuiState) (sender now id : Nat)
        (s' : SuiState) (t : Transfer) (lock : LockObject),
        getObj s id = some lock →
        htlc.refund s sender now id = (s', .ok t) →
        t = { toAddr := lock.refund_adr, amount := lock.coin } ∧
        getObj s' id = none ∧
        (∀ (sender' now' : Nat) (sec' : List Nat),
          isOkE (htlc.redeem s' sender' id sec').2 = false ∧
          isOkE (htlc.refund s' sender' now' id).2 = false)) := by
  refine ⟨?_, ?_, ?_, ?_⟩
  · intro s sender now lockId sec s' t h
    obtain ⟨ht, hrec, hs'⟩ := evm_redeem_ok_parts s sender now lockId sec s' t h
    refine ⟨by rw [ht], by rw [ht, hrec], ?_⟩
    intro sender' now' sec'
    apply evm_terminal_calls_fail
    left
    rw [hs', getLockE_cons]
    simp
  · intro s sender now lockId s' t h
    obtain ⟨ht, hdep, hs'⟩ := evm_refund_ok_parts s sender now lockId s' t h
    refine ⟨by rw [ht], by rw [ht, hdep], ?_⟩
    intro sender' now' sec'
    apply evm_terminal_calls_fail
    right
    rw [hs', getLockE_cons]
    simp
  · intro s sender id sec s' t lock hobj h
    obtain ⟨ht, hs'⟩ := sui_redeem_ok_parts s sender id sec s' t lock hobj h
    subst hs'
    refine ⟨ht, getObj_removeObj s id, ?_⟩
    intro sender' now' sec'
    have := sui_gone_fails (removeObj s id) sender' now' id sec' (getObj_removeObj s id)
    exact ⟨by rw [this.1]; rfl, by rw [this.2]; rfl⟩
  · intro s sender now id s' t lock hobj h
    obtain ⟨ht, hs'⟩ := sui_refund_ok_parts s sender now id s' t lock hobj h
    subst hs'
    refine ⟨ht, getObj_removeObj s id, ?_⟩
    intro sender' now' sec'
    have := sui_gone_fails (removeObj s id) sender' now' id sec' (getObj_removeObj s id)
    exact ⟨by rw [this.1]; rfl, by rw [this.2]; rfl⟩

/-- C8 witness: the concrete successful redeem on the live EVM lock pays
exactly 10 wei to recipient 6, and no second claim or refund on lock 1 can
succeed afterwards. -/
theorem claim_C8_witness :
    ({ toAddr := 6, amount := 10 } : Transfer).amount = (getLockE evmStateW 1).amount ∧
    ({ toAddr := 6, amount := 10 } : Transfer).toAddr = (getLockE evmStateW 1).recipient ∧
    (∀ (sender' now' : Nat) (sec' : List Nat),
      isOkE (HTLC.redeem ((1, { evmLockW with claimed := true }) :: evmStateW)
               sender' now' 1 sec').2 = false ∧
      isOkE (HTLC.refund ((1, { evmLockW with claimed := true }) :: evmStateW)
               sender' now' 1).2 = false) :=
  claim_C8_conservation.1 evmStateW 6 500 1 secW
    ((1, { evmLockW with claimed := true }) :: evmStateW)
    { toAddr := 6, amount := 10 } (by rfl)

/-! ## Claim C9 — lock-id derivation -/

theorem hexDigit_inj (a b : Nat) (ha : a < 16) (hb : b < 16)
    (h : hexDigit a = hexDigit b) : a = b := by
  have key : ∀ x : Fin 16, ∀ y : Fin 16, hexDigit x.val = hexDigit y.val → x = y := by
    decide
  exact congrArg Fin.val (key ⟨a, ha⟩ ⟨b, hb⟩ h)

theorem hexOfBytes_inj : ∀ (a b : List Nat),
    (∀ x ∈ a, x < 256) → (∀ x ∈ b, x < 256) →
    hexOfBytes a = hexOfBytes b → a = b
  | [], [], _, _, _ => rfl
  | [], _ :: _, _, _, h => by simp [hexOfBytes] at h
  | _ :: _, [], _, _, h => by simp [hexOfBytes] at h
  | x :: xs, y :: ys, ha, hb, h => by
      simp only [hexOfBytes, List.cons.injEq] at h
      obtain ⟨h1, h2, h3⟩ := h
      have hx : x < 256 := ha x (List.mem_cons_self x xs)
      have hy : y < 256 := hb y (List.mem_cons_self y ys)
      have d1 : x / 16 = y / 16 := hexDigit_inj _ _ (by omega) (by omega) h1
      have d2 : x % 16 = y % 16 := hexDigit_inj _ _ (by omega) (by omega) h2
      have hxy : x = y := by omega
      have htail := hexOfBytes_inj xs ys
        (fun z hz => ha z (List.mem_cons_of_mem _ hz))
        (fun z hz => hb z (List.mem_cons_of_mem _ hz)) h3
      rw [hxy, htail]

theorem generateLockId_data (h : List Nat) :
    (generateLockId h).data = '0' :: 'x' :: hexOfBytes h := rfl

/-- C9: `generateLockId` returns `'0x'` followed by the lowercase hex
encoding of `secretHash`; it is deterministic — both demo flows derive the
identical lock id from the same secret hash with no coordination — and
injective on byte strings, so distinct secret hashes give distinct ids. -/
theorem claim_C9_lockid_derivation :
    (∀ h : List Nat, generateLockId h = "0x" ++ String.mk (hexOfBytes h)) ∧
    (∀ secret : List Nat,
        (demonstrateEVMToSUI secret).lockId = generateLockId (hashSecret secret) ∧
        (demonstrateSUIToEVM secret).lockId = generateLockId (hashSecret secret) ∧
        (demonstrateEVMToSUI secret).lockId = (demonstrateSUIToEVM secret).lockId) ∧
    (∀ h₁ h₂ : List Nat, (∀ b ∈ h₁, b < 256) → (∀ b ∈ h₂, b < 256) →
        generateLockId h₁ = generateLockId h₂ → h₁ = h₂) ∧
    (∀ h₁ h₂ : List Nat, (∀ b ∈ h₁, b < 256) → (∀ b ∈ h₂, b < 256) →
        h₁ ≠ h₂ → generateLockId h₁ ≠ generateLockId h₂) := by
  have inj : ∀ h₁ h₂ : List Nat, (∀ b ∈ h₁, b < 256) → (∀ b ∈ h₂, b < 256) →
      generateLockId h₁ = generateLockId h₂ → h₁ = h₂ := by
    intro h₁ h₂ b1 b2 he
    apply hexOfBytes_inj _ _ b1 b2
    have hd := congrArg String.data he
    rw [generateLockId_data, generateLockId_data] at hd
    simpa using hd
  exact ⟨fun _ => rfl, fun _ => ⟨rfl, rfl, rfl⟩, inj,
    fun h₁ h₂ b1 b2 hne he => hne (inj h₁ h₂ b1 b2 he)⟩

/-- C9 witness: the distinct one-byte hashes `[0]` and `[1]` produce
distinct lock ids. -/
theorem claim_C9_witness : generateLockId [0] ≠ generateLockId [1] :=
  claim_C9_lockid_derivation.2.2.2 [0] [1] (by decide) (by decide) (by decide)

/-! ## Claim C10 — `SuiService.getLock` never reports a terminal lock -/

/-- C10: every non-`null` result of `SuiService.getLock` has
`claimed = false` and `refunded = false` (the fields are constants in the
code); a missing object yields `null`; and since a successful redeem or
refund deletes the shared object, `getLock` on a terminal lock returns
`null` rather than a view with a terminal status. -/
theorem claim_C10_getLock_never_terminal :
    (∀ (s : SuiState) (id : Nat) (v : SuiLockView),
        SuiService.getLock s id = some v →
        v.claimed = false ∧ v.refunded = false) ∧
    (∀ (s : SuiState) (id : Nat),
        getObj s id = none → SuiService.getLock s id = none) ∧
    (∀ (s : SuiState) (sender id : Nat) (sec : List Nat)
        (s' : SuiState) (t : Transfer),
        htlc.redeem s sender id sec = (s', .ok t) →
        SuiService.getLock s' id = none) ∧
    (∀ (s : SuiState) (sender now id : Nat) (s' : SuiState) (t : Transfer),
        htlc.refund s sender now id = (s', .ok t) →
        SuiService.getLock s' id = none) := by
  refine ⟨?_, ?_, ?_, ?_⟩
  · intro s id v h
    simp only [SuiService.getLock] at h
    cases hobj : getObj s id with
    | none => rw [hobj] at h; cases h
    | some fields =>
        rw [hobj] at h
        cases h
        exact ⟨rfl, rfl⟩
  · intro s id h
    simp [SuiService.getLock, h]
  · intro s sender id sec s' t h
    cases hobj : getObj s id with
    | none => simp [htlc.redeem, hobj] at h
    | some lock =>
        have hs' := (sui_redeem_ok_parts s sender id sec s' t lock hobj h).2
        subst hs'
        simp [SuiService.getLock, getObj_removeObj]
  · intro s sender now id s' t h
    cases hobj : getObj s id with
    | none => simp [htlc.refund, hobj] at h
    | some lock =>
        have hs' := (sui_refund_ok_parts s sender now id s' t lock hobj h).2
        subst hs'
        simp [SuiService.getLock, getObj_removeObj]

/-- C10 witness: the concrete live lock's view has both status flags
`false`. -/
theorem claim_C10_witness :
    ({ objectId := 1, initiator := 5, targetAddress := 4, refundAddress := 3,
       amount := 25, secretHash := secWHash, deadline := 1000,
       claimed := false, refunded := false } : SuiLockView).claimed = false ∧
    ({ objectId := 1, initiator := 5, targetAddress := 4, refundAddress := 3,
       amount := 25, secretHash := secWHash, deadline := 1000,
       claimed := false, refunded := false } : SuiLockView).refunded = false :=
  claim_C10_getLock_never_terminal.1 suiStateW 1 _ (by rfl)

end EnderSwap
